import Mathlib

/-!
Shallow embedding of `src/timeleft.py`.

The program models atmospheric CO2 year by year (`model_co2_trajectory`),
scans the produced trajectory for the first year whose concentration meets
or exceeds a toxic threshold (`calculate_years_until_toxic_breathing`),
and hands the result to a presentation layer (`display_results`,
`plot_co2_trajectory`).

Python floats are embedded as real numbers (`ℝ`), `math.exp` as `Real.exp`
and `math.pow (0.999) i` as `(0.999 : ℝ) ^ i`.  The module-level constants
of the source file become the fields of a `Consts` record (the source
values are `srcConsts`); `datetime.datetime.now().year` becomes an explicit
`startYear : ℤ` parameter.  The imperative list-append loop of the source
becomes a pair of primitive recursive sequences (`annual_emissions`,
`co2_levels`) mapped over `List.range`, which is exactly what the loop
computes (each record is derived only from its predecessor and the step
index).
-/

namespace Timeleft

/-- The module-level constants of `timeleft.py` (lines 7-28), as a record so
that the model can be run with alternative figures; `srcConsts` holds the
values hard-coded in the source. -/
structure Consts where
  current_co2_ppm : ℝ
  toxic_breathing_co2_ppm : ℝ
  current_annual_co2_increase : ℝ
  total_annual_tree_sequestration_gt : ℝ
  gt_co2_to_ppm : ℝ
  current_annual_emissions_gt : ℝ
  additional_natural_sinks_gt : ℝ

/-- The constant values of the source file:
CURRENT_CO2_PPM = 420, TOXIC_BREATHING_CO2_PPM = 4200,
CURRENT_ANNUAL_CO2_INCREASE = 2.5, TOTAL_ANNUAL_TREE_SEQUESTRATION_GT = 7.6,
GT_CO2_TO_PPM = 0.1292, CURRENT_ANNUAL_EMISSIONS_GT = 36.8,
ADDITIONAL_NATURAL_SINKS_GT = 10.1. -/
def srcConsts : Consts :=
  ⟨420, 4200, 2.5, 7.6, 0.1292, 36.8, 10.1⟩

/-- TOTAL_NATURAL_SEQUESTRATION_GT =
TOTAL_ANNUAL_TREE_SEQUESTRATION_GT + ADDITIONAL_NATURAL_SINKS_GT
(source line 31). -/
def Consts.total_natural_sequestration_gt (c : Consts) : ℝ :=
  c.total_annual_tree_sequestration_gt + c.additional_natural_sinks_gt

/-- The `annual_emissions` sequence built by the loop of
`model_co2_trajectory` (source lines 46, 51-56): entry 0 is
CURRENT_ANNUAL_EMISSIONS_GT, and entry i (i ≥ 1) multiplies the previous
entry by `1 + growth_rate` where
`growth_rate = acceleration_factor * math.exp (-i / 100)`. -/
noncomputable def annual_emissions (c : Consts) (acceleration_factor : ℝ) : ℕ → ℝ
  | 0 => c.current_annual_emissions_gt
  | i + 1 =>
      annual_emissions c acceleration_factor i *
        (1 + acceleration_factor * Real.exp (-(((i : ℕ) + 1 : ℕ) : ℝ) / 100))

/-- The `co2_levels` sequence built by the loop of `model_co2_trajectory`
(source lines 45, 58-72): entry 0 is CURRENT_CO2_PPM, and entry i (i ≥ 1)
adds `net_ppm_increase = emission_ppm_increase - sequestration_ppm` to the
previous entry, where `emission_ppm_increase = annual_emission * GT_CO2_TO_PPM`
and `sequestration_ppm = (TOTAL_NATURAL_SEQUESTRATION_GT * 0.999 ^ i) *
GT_CO2_TO_PPM`. -/
noncomputable def co2_levels (c : Consts) (acceleration_factor : ℝ) : ℕ → ℝ
  | 0 => c.current_co2_ppm
  | i + 1 =>
      co2_levels c acceleration_factor i +
        (annual_emissions c acceleration_factor (i + 1) * c.gt_co2_to_ppm -
          c.total_natural_sequestration_gt * (0.999 : ℝ) ^ ((i : ℕ) + 1) *
            c.gt_co2_to_ppm)

/-- The dictionary returned by `model_co2_trajectory`
(source line 74): parallel lists of calendar years, CO2 levels (ppm) and
annual emissions (gigatons). -/
structure Trajectory where
  years : List ℤ
  co2_levels : List ℝ
  annual_emissions : List ℝ

/-- `model_co2_trajectory(years_to_model, acceleration_factor)`
(source lines 33-74). `years` is
`range(now().year, now().year + years_to_model + 1)`; the other two lists
are the values appended by the loop, i.e. the sequences `co2_levels` and
`annual_emissions` at indices 0 .. years_to_model.  The source's default
arguments are `years_to_model = 200`, `acceleration_factor = 0.01`. -/
noncomputable def model_co2_trajectory (c : Consts) (startYear : ℤ)
    (years_to_model : ℕ) (acceleration_factor : ℝ) : Trajectory :=
  ⟨(List.range (years_to_model + 1)).map (fun i : ℕ => startYear + (i : ℤ)),
    (List.range (years_to_model + 1)).map (co2_levels c acceleration_factor),
    (List.range (years_to_model + 1)).map (annual_emissions c acceleration_factor)⟩

/-- The scan of `calculate_years_until_toxic_breathing` (source lines
92-96): the first index whose level meets or exceeds the threshold
(`co2_levels[i] >= TOXIC_BREATHING_CO2_PPM`, then `break`), `none` when the
loop falls through. -/
noncomputable def firstCrossing (threshold : ℝ) : List ℝ → Option ℕ
  | [] => none
  | x :: xs =>
      if threshold ≤ x then some 0
      else (firstCrossing threshold xs).map (· + 1)

/-- The scan of `plot_co2_trajectory` (source lines 160-164): a second,
textually separate loop of the same shape as the one in
`calculate_years_until_toxic_breathing`, giving `toxic_index`. -/
noncomputable def plotScan (threshold : ℝ) : List ℝ → Option ℕ
  | [] => none
  | x :: xs =>
      if threshold ≤ x then some 0
      else (plotScan threshold xs).map (· + 1)

/-- The success dictionary returned by `calculate_years_until_toxic_breathing`
(source lines 109-119). -/
structure ToxicResult where
  current_year : ℤ
  toxic_year : ℤ
  years : ℤ
  months : ℤ
  days : ℤ
  hours : ℤ
  minutes : ℤ
  seconds : ℤ
  model_results : Trajectory

/-- The success branch of `calculate_years_until_toxic_breathing` (source
lines 94-95 and 103-119): at crossing index i,
`toxic_year = years[i]`, `years_until_toxic = years[i] - now().year`,
`months = years_until_toxic * 12`, `days = years_until_toxic * 365`,
`hours = days * 24`, `minutes = hours * 60`, `seconds = minutes * 60`.
Fields in order: current_year, toxic_year, years, months, days, hours,
minutes, seconds, model_results. -/
noncomputable def mkToxicResult (startYear : ℤ) (model_results : Trajectory)
    (i : ℕ) : ToxicResult :=
  let toxic_year := model_results.years.getD i 0
  let years_until_toxic := toxic_year - startYear
  let months := years_until_toxic * 12
  let days := years_until_toxic * 365
  let hours := days * 24
  let minutes := hours * 60
  let seconds := minutes * 60
  ⟨startYear, toxic_year, years_until_toxic, months, days, hours, minutes,
    seconds, model_results⟩

/-- `calculate_years_until_toxic_breathing` (source lines 76-119): runs the
model with `years_to_model = 1000` (and the default
`acceleration_factor = 0.01`), scans for the first year whose level meets
the toxic threshold, and returns either the success dictionary or the
`{"error": ...}` dictionary (embedded as `Except.error` with the source's
message). -/
noncomputable def calculate_years_until_toxic_breathing (c : Consts)
    (startYear : ℤ) : Except String ToxicResult :=
  let model_results := model_co2_trajectory c startYear 1000 (0.01 : ℝ)
  match firstCrossing c.toxic_breathing_co2_ppm model_results.co2_levels with
  | some i => Except.ok (mkToxicResult startYear model_results i)
  | none =>
      Except.error "CO2 does not reach toxic levels within 1000 years in this model"

/-- What `display_results` (source lines 121-148) prints: either the error
message alone (lines 123-125) or the full report of the result record. -/
inductive ConsoleOutput where
  | message (s : String)
  | report (r : ToxicResult)

/-- `display_results` (source lines 121-148): on an error dictionary it
prints the error message and returns; otherwise it prints the report built
from the result record. -/
def display_results : Except String ToxicResult → ConsoleOutput
  | Except.error m => ConsoleOutput.message m
  | Except.ok r => ConsoleOutput.report r

/-- The chart produced by `plot_co2_trajectory` (source lines 173-205): the
plotted year/level series (possibly truncated to `toxic_index + 20`) and
the year of the vertical "toxic levels reached" marker. -/
structure ChartData where
  plotted_years : List ℤ
  plotted_co2 : List ℝ
  marker_year : ℤ

/-- `plot_co2_trajectory` (source lines 150-205): returns without producing
a chart on the error dictionary (lines 152-153); otherwise re-scans
`co2_levels` for `toxic_index` (lines 160-164), plots the full series when
it is `none` (with `toxic_index = len(years) - 1`, line 167), and truncates
both series to `toxic_index + 20` when found (lines 170-171); the vertical
marker sits at `years[toxic_index]` (line 188). -/
noncomputable def plot_co2_trajectory (c : Consts) :
    Except String ToxicResult → Option ChartData
  | Except.error _ => none
  | Except.ok results =>
      let years := results.model_results.years
      let co2Levels := results.model_results.co2_levels
      match plotScan c.toxic_breathing_co2_ppm co2Levels with
      | none => some ⟨years, co2Levels, years.getD (years.length - 1) 0⟩
      | some i => some ⟨years.take (i + 20), co2Levels.take (i + 20), years.getD i 0⟩

/-! ### Helper lemmas -/

/-- Indexing a mapped range: entry `i` of `(List.range n).map f` is `f i`. -/
theorem getD_map_range {α : Type} (f : ℕ → α) (d : α) {i n : ℕ} (h : i < n) :
    ((List.range n).map f).getD i d = f i := by
  have hlen : i < ((List.range n).map f).length := by simpa using h
  rw [List.getD_eq_getElem _ _ hlen, List.getElem_map, List.getElem_range]

/-- Unfolding lemma for `firstCrossing` on a cons cell. -/
theorem firstCrossing_cons (threshold x : ℝ) (xs : List ℝ) :
    firstCrossing threshold (x :: xs) =
      if threshold ≤ x then some 0
      else (firstCrossing threshold xs).map (· + 1) := rfl

/-- `firstCrossing` returns `some i` exactly when index `i` is in range,
meets the threshold, and every earlier index is strictly below it. -/
theorem firstCrossing_eq_some_iff (threshold : ℝ) (l : List ℝ) (i : ℕ) :
    firstCrossing threshold l = some i ↔
      i < l.length ∧ threshold ≤ l.getD i 0 ∧
        ∀ j, j < i → l.getD j 0 < threshold := by
  induction l generalizing i with
  | nil => simp [firstCrossing]
  | cons x xs ih =>
      rw [firstCrossing_cons]
      by_cases hx : threshold ≤ x
      · rw [if_pos hx]
        constructor
        · intro h
          obtain rfl : (0 : ℕ) = i := by simpa using h
          exact ⟨Nat.succ_pos _, by simpa using hx,
            fun j hj => absurd hj (Nat.not_lt_zero j)⟩
        · rintro ⟨hlen, hge, hlt⟩
          cases i with
          | zero => rfl
          | succ n =>
              exact absurd (hlt 0 (Nat.succ_pos n)) (by simpa using hx)
      · rw [if_neg hx]
        push_neg at hx
        constructor
        · intro h
          obtain ⟨i', hi', rfl⟩ := Option.map_eq_some'.mp h
          obtain ⟨h1, h2, h3⟩ := (ih i').mp hi'
          refine ⟨by simpa using h1, by simpa using h2, ?_⟩
          intro j hj
          cases j with
          | zero => simpa using hx
          | succ m => simpa using h3 m (Nat.lt_of_succ_lt_succ hj)
        · rintro ⟨hlen, hge, hlt⟩
          cases i with
          | zero => exact absurd (by simpa using hge) (not_le.mpr hx)
          | succ n =>
              have hmem : firstCrossing threshold xs = some n :=
                (ih n).mpr ⟨by simpa using hlen, by simpa using hge,
                  fun j hj => by
                    simpa using hlt (j + 1) (Nat.succ_lt_succ hj)⟩
              rw [hmem]
              rfl

/-- `firstCrossing` returns `none` exactly when every value in the list is
strictly below the threshold. -/
theorem firstCrossing_eq_none_iff (threshold : ℝ) (l : List ℝ) :
    firstCrossing threshold l = none ↔ ∀ x ∈ l, x < threshold := by
  induction l with
  | nil => simp [firstCrossing]
  | cons x xs ih =>
      rw [firstCrossing_cons]
      by_cases hx : threshold ≤ x
      · rw [if_pos hx]
        simp [not_lt.mpr hx]
      · rw [if_neg hx]
        push_neg at hx
        simp [hx, ih]

/-- The plot routine's scan is the same function as the analyzer's scan. -/
theorem plotScan_eq_firstCrossing (threshold : ℝ) (l : List ℝ) :
    plotScan threshold l = firstCrossing threshold l := by
  induction l with
  | nil => rfl
  | cons x xs ih => rw [plotScan, firstCrossing_cons, ih]

/-- The years list of a modeled trajectory. -/
theorem model_years_list (c : Consts) (startYear : ℤ) (n : ℕ) (a : ℝ) :
    (model_co2_trajectory c startYear n a).years =
      (List.range (n + 1)).map (fun i : ℕ => startYear + (i : ℤ)) := rfl

/-- The CO2 list of a modeled trajectory. -/
theorem model_co2_list (c : Consts) (startYear : ℤ) (n : ℕ) (a : ℝ) :
    (model_co2_trajectory c startYear n a).co2_levels =
      (List.range (n + 1)).map (co2_levels c a) := rfl

/-- The emissions list of a modeled trajectory. -/
theorem model_emissions_list (c : Consts) (startYear : ℤ) (n : ℕ) (a : ℝ) :
    (model_co2_trajectory c startYear n a).annual_emissions =
      (List.range (n + 1)).map (annual_emissions c a) := rfl

/-- The current_year field of a success record. -/
theorem mkToxicResult_current_year (startYear : ℤ) (t : Trajectory) (i : ℕ) :
    (mkToxicResult startYear t i).current_year = startYear := rfl

/-- The toxic_year field of a success record is `years[i]`. -/
theorem mkToxicResult_toxic_year (startYear : ℤ) (t : Trajectory) (i : ℕ) :
    (mkToxicResult startYear t i).toxic_year = t.years.getD i 0 := rfl

/-- The years field of a success record is `years[i] - startYear`. -/
theorem mkToxicResult_years (startYear : ℤ) (t : Trajectory) (i : ℕ) :
    (mkToxicResult startYear t i).years = t.years.getD i 0 - startYear := rfl

/-- The years field equals toxic_year - current_year. -/
theorem mkToxicResult_years_delta (startYear : ℤ) (t : Trajectory) (i : ℕ) :
    (mkToxicResult startYear t i).years =
      (mkToxicResult startYear t i).toxic_year -
        (mkToxicResult startYear t i).current_year := rfl

/-- months = years * 12 in a success record. -/
theorem mkToxicResult_months (startYear : ℤ) (t : Trajectory) (i : ℕ) :
    (mkToxicResult startYear t i).months =
      (mkToxicResult startYear t i).years * 12 := rfl

/-- days = years * 365 in a success record. -/
theorem mkToxicResult_days (startYear : ℤ) (t : Trajectory) (i : ℕ) :
    (mkToxicResult startYear t i).days =
      (mkToxicResult startYear t i).years * 365 := rfl

/-- hours = days * 24 in a success record. -/
theorem mkToxicResult_hours (startYear : ℤ) (t : Trajectory) (i : ℕ) :
    (mkToxicResult startYear t i).hours =
      (mkToxicResult startYear t i).days * 24 := rfl

/-- minutes = hours * 60 in a success record. -/
theorem mkToxicResult_minutes (startYear : ℤ) (t : Trajectory) (i : ℕ) :
    (mkToxicResult startYear t i).minutes =
      (mkToxicResult startYear t i).hours * 60 := rfl

/-- seconds = minutes * 60 in a success record. -/
theorem mkToxicResult_seconds (startYear : ℤ) (t : Trajectory) (i : ℕ) :
    (mkToxicResult startYear t i).seconds =
      (mkToxicResult startYear t i).minutes * 60 := rfl

/-- The model_results field of a success record is the trajectory it was
built from. -/
theorem mkToxicResult_model_results (startYear : ℤ) (t : Trajectory) (i : ℕ) :
    (mkToxicResult startYear t i).model_results = t := rfl

/-- When the scan finds a crossing index, `calculate_years_until_toxic_breathing`
returns the success record built at that index. -/
theorem calculate_eq_ok (c : Consts) (startYear : ℤ) (i : ℕ)
    (h : firstCrossing c.toxic_breathing_co2_ppm
        (model_co2_trajectory c startYear 1000 (0.01 : ℝ)).co2_levels = some i) :
    calculate_years_until_toxic_breathing c startYear =
      Except.ok
        (mkToxicResult startYear
          (model_co2_trajectory c startYear 1000 (0.01 : ℝ)) i) := by
  unfold calculate_years_until_toxic_breathing
  simp only [h]

/-- When the scan finds no crossing, `calculate_years_until_toxic_breathing`
returns the source's error dictionary. -/
theorem calculate_eq_error (c : Consts) (startYear : ℤ)
    (h : firstCrossing c.toxic_breathing_co2_ppm
        (model_co2_trajectory c startYear 1000 (0.01 : ℝ)).co2_levels = none) :
    calculate_years_until_toxic_breathing c startYear =
      Except.error
        "CO2 does not reach toxic levels within 1000 years in this model" := by
  unfold calculate_years_until_toxic_breathing
  simp only [h]

/-- If the starting concentration already meets the threshold, the scan stops
at index 0, so the calculation succeeds with the record built at index 0. -/
theorem calculate_ok_of_start_ge (c : Consts) (startYear : ℤ)
    (h : c.toxic_breathing_co2_ppm ≤ c.current_co2_ppm) :
    calculate_years_until_toxic_breathing c startYear =
      Except.ok
        (mkToxicResult startYear
          (model_co2_trajectory c startYear 1000 (0.01 : ℝ)) 0) := by
  apply calculate_eq_ok
  refine (firstCrossing_eq_some_iff _ _ _).mpr
    ⟨by simp [model_co2_trajectory], ?_, fun j hj => absurd hj (Nat.not_lt_zero j)⟩
  unfold model_co2_trajectory
  rw [getD_map_range _ _ (Nat.succ_pos 1000)]
  exact h

/-- When the plot routine's scan finds a crossing index, the chart truncates
both series to `toxic_index + 20` and puts the marker at `years[toxic_index]`. -/
theorem plot_ok_some (c : Consts) (r : ToxicResult) (i : ℕ)
    (h : plotScan c.toxic_breathing_co2_ppm r.model_results.co2_levels = some i) :
    plot_co2_trajectory c (Except.ok r) =
      some
        ⟨r.model_results.years.take (i + 20),
          r.model_results.co2_levels.take (i + 20),
          r.model_results.years.getD i 0⟩ := by
  unfold plot_co2_trajectory
  simp only [h]

/-- The marker year of a chart literal. -/
theorem ChartData_marker (a : List ℤ) (b : List ℝ) (m : ℤ) :
    (ChartData.mk a b m).marker_year = m := rfl

/-- With a zero gigaton-to-ppm factor every net increase vanishes, so the
CO2 sequence is constantly the starting concentration. -/
theorem co2_levels_const_of_factor_zero (c : Consts) (a : ℝ)
    (hf : c.gt_co2_to_ppm = 0) (i : ℕ) :
    co2_levels c a i = c.current_co2_ppm := by
  induction i with
  | zero => rfl
  | succ n ih => rw [co2_levels, ih, hf]; ring

/-! ### Claim theorems -/

/-- Claim C1: for every step index i from 1 to horizon_years, the trajectory
recurrence computes exactly `emissions[i] = emissions[i-1] * (1 +
acceleration_factor * exp (-i / 100))` and `co2[i] = co2[i-1] +
(emissions[i] * GT_CO2_TO_PPM - (TOTAL_NATURAL_SEQUESTRATION_GT * 0.999 ^ i)
* GT_CO2_TO_PPM)`, i.e. the year's sequestration is the decayed capacity,
both flows are converted to ppm by the fixed gigaton-to-ppm factor, and the
new level is the previous level plus the (possibly negative, unclamped) net
increase. -/
theorem C1_recurrence (c : Consts) (startYear : ℤ) (N : ℕ) (a : ℝ) (i : ℕ)
    (h1 : 1 ≤ i) (h2 : i ≤ N) :
    (model_co2_trajectory c startYear N a).annual_emissions.getD i 0 =
        (model_co2_trajectory c startYear N a).annual_emissions.getD (i - 1) 0 *
          (1 + a * Real.exp (-(i : ℝ) / 100)) ∧
      (model_co2_trajectory c startYear N a).co2_levels.getD i 0 =
        (model_co2_trajectory c startYear N a).co2_levels.getD (i - 1) 0 +
          ((model_co2_trajectory c startYear N a).annual_emissions.getD i 0 *
              c.gt_co2_to_ppm -
            c.total_natural_sequestration_gt * (0.999 : ℝ) ^ i *
              c.gt_co2_to_ppm) := by
  obtain ⟨j, rfl⟩ : ∃ j, i = j + 1 :=
    ⟨i - 1, (Nat.succ_pred_eq_of_pos h1).symm⟩
  have hi : j + 1 < N + 1 := Nat.lt_succ_of_le h2
  have hj : j < N + 1 := lt_trans (Nat.lt_succ_self j) hi
  unfold model_co2_trajectory
  simp only [Nat.add_sub_cancel, getD_map_range _ _ hi, getD_map_range _ _ hj]
  exact ⟨by rw [annual_emissions], by rw [co2_levels]⟩

/-- Witness for C1 at c = srcConsts, startYear = 2023, N = 2, i = 1. -/
theorem C1_recurrence_witness :
    (model_co2_trajectory srcConsts 2023 2 (0.01 : ℝ)).annual_emissions.getD 1 0 =
        (model_co2_trajectory srcConsts 2023 2 (0.01 : ℝ)).annual_emissions.getD
            (1 - 1) 0 *
          (1 + (0.01 : ℝ) * Real.exp (-((1 : ℕ) : ℝ) / 100)) ∧
      (model_co2_trajectory srcConsts 2023 2 (0.01 : ℝ)).co2_levels.getD 1 0 =
        (model_co2_trajectory srcConsts 2023 2 (0.01 : ℝ)).co2_levels.getD
            (1 - 1) 0 +
          ((model_co2_trajectory srcConsts 2023 2 (0.01 : ℝ)).annual_emissions.getD
                1 0 *
              srcConsts.gt_co2_to_ppm -
            srcConsts.total_natural_sequestration_gt * (0.999 : ℝ) ^ (1 : ℕ) *
              srcConsts.gt_co2_to_ppm) :=
  C1_recurrence srcConsts 2023 2 (0.01 : ℝ) 1 (by decide) (by decide)

/-- Claim C2: for every trajectory and every threshold, the threshold search
returns `some i` exactly when index i is within the trajectory, its
concentration meets or exceeds the threshold (equality counts), and every
earlier index is strictly below the threshold — a forward scan returning
the smallest crossing index. -/
theorem C2_first_crossing (t : Trajectory) (threshold : ℝ) (i : ℕ) :
    firstCrossing threshold t.co2_levels = some i ↔
      i < t.co2_levels.length ∧ threshold ≤ t.co2_levels.getD i 0 ∧
        ∀ j, j < i → t.co2_levels.getD j 0 < threshold :=
  firstCrossing_eq_some_iff threshold t.co2_levels i

/-- Claim C3: for every horizon N ≥ 0 and every acceleration factor, the
model returns exactly N+1 records, the calendar years are the contiguous
increasing run startYear, startYear+1, ..., startYear+N, and record 0
carries the starting concentration and starting emissions; for N = 0 this
is exactly the one starting record. -/
theorem C3_trajectory_shape (c : Consts) (startYear : ℤ) (N : ℕ) (a : ℝ) :
    (model_co2_trajectory c startYear N a).years.length = N + 1 ∧
      (model_co2_trajectory c startYear N a).co2_levels.length = N + 1 ∧
      (model_co2_trajectory c startYear N a).annual_emissions.length = N + 1 ∧
      (∀ i, i ≤ N →
        (model_co2_trajectory c startYear N a).years.getD i 0 =
          startYear + (i : ℤ)) ∧
      (model_co2_trajectory c startYear N a).co2_levels.getD 0 0 =
        c.current_co2_ppm ∧
      (model_co2_trajectory c startYear N a).annual_emissions.getD 0 0 =
        c.current_annual_emissions_gt := by
  refine ⟨by simp [model_co2_trajectory], by simp [model_co2_trajectory],
    by simp [model_co2_trajectory], ?_, ?_, ?_⟩
  · intro i hi
    unfold model_co2_trajectory
    rw [getD_map_range _ _ (Nat.lt_succ_of_le hi)]
  · unfold model_co2_trajectory
    rw [getD_map_range _ _ (Nat.succ_pos N)]
    rfl
  · unfold model_co2_trajectory
    rw [getD_map_range _ _ (Nat.succ_pos N)]
    rfl

/-- Witness for C3 at c = srcConsts, startYear = 2023, N = 5 (and the inner
year-run hypothesis discharged at i = 3), plus the N = 0 case. -/
theorem C3_trajectory_shape_witness :
    (model_co2_trajectory srcConsts 2023 5 (0.01 : ℝ)).years.length = 6 ∧
      (model_co2_trajectory srcConsts 2023 5 (0.01 : ℝ)).years.getD 3 0 =
        2023 + ((3 : ℕ) : ℤ) ∧
      (model_co2_trajectory srcConsts 2023 0 (0.01 : ℝ)).years.length = 1 ∧
      (model_co2_trajectory srcConsts 2023 0 (0.01 : ℝ)).co2_levels.getD 0 0 =
        srcConsts.current_co2_ppm :=
  ⟨(C3_trajectory_shape srcConsts 2023 5 (0.01 : ℝ)).1,
    (C3_trajectory_shape srcConsts 2023 5 (0.01 : ℝ)).2.2.2.1 3 (by decide),
    (C3_trajectory_shape srcConsts 2023 0 (0.01 : ℝ)).1,
    (C3_trajectory_shape srcConsts 2023 0 (0.01 : ℝ)).2.2.2.2.1⟩

/-- Claim C4: every successful crossing result derives all elapsed-time
figures from the single integer year delta `crossing_year - start_year` by
exact integer arithmetic: months = years * 12, days = years * 365,
hours = days * 24, minutes = hours * 60, seconds = minutes * 60, and the
years figure itself is exactly toxic_year - current_year. -/
theorem C4_unit_consistency (c : Consts) (startYear : ℤ) (r : ToxicResult)
    (h : calculate_years_until_toxic_breathing c startYear = Except.ok r) :
    r.months = r.years * 12 ∧ r.days = r.years * 365 ∧
      r.hours = r.days * 24 ∧ r.minutes = r.hours * 60 ∧
      r.seconds = r.minutes * 60 ∧
      r.years = r.toxic_year - r.current_year := by
  cases hfc : firstCrossing c.toxic_breathing_co2_ppm
      (model_co2_trajectory c startYear 1000 (0.01 : ℝ)).co2_levels with
  | none =>
      rw [calculate_eq_error c startYear hfc] at h
      exact Except.noConfusion h
  | some i =>
      rw [calculate_eq_ok c startYear i hfc] at h
      injection h with h
      subst h
      exact ⟨mkToxicResult_months _ _ _, mkToxicResult_days _ _ _,
        mkToxicResult_hours _ _ _, mkToxicResult_minutes _ _ _,
        mkToxicResult_seconds _ _ _, mkToxicResult_years_delta _ _ _⟩

/-- Witness for C4: a constant set whose starting level already exceeds the
threshold makes the calculation succeed, and the unit equations hold for
the returned record. -/
theorem C4_unit_consistency_witness :
    ∃ r,
      calculate_years_until_toxic_breathing
          ⟨4200, 420, 2.5, 7.6, 0.1292, 36.8, 10.1⟩ 2023 = Except.ok r ∧
        (r.months = r.years * 12 ∧ r.days = r.years * 365 ∧
          r.hours = r.days * 24 ∧ r.minutes = r.hours * 60 ∧
          r.seconds = r.minutes * 60 ∧
          r.years = r.toxic_year - r.current_year) :=
  ⟨_, calculate_ok_of_start_ge ⟨4200, 420, 2.5, 7.6, 0.1292, 36.8, 10.1⟩ 2023
      (by norm_num),
    C4_unit_consistency ⟨4200, 420, 2.5, 7.6, 0.1292, 36.8, 10.1⟩ 2023 _
      (calculate_ok_of_start_ge ⟨4200, 420, 2.5, 7.6, 0.1292, 36.8, 10.1⟩ 2023
        (by norm_num))⟩

/-- Claim C5: a trajectory all of whose concentrations are strictly below
the threshold yields the distinct not-found outcome (which carries no
elapsed-time figures); when the 1000-year scan comes back empty the
top-level calculation returns the explanatory error message; the console
step prints exactly that message instead of a report; and the chart step
short-circuits cleanly, producing no chart, on the error outcome. -/
theorem C5_not_found :
    (∀ (t : Trajectory) (threshold : ℝ),
        (∀ x ∈ t.co2_levels, x < threshold) →
          firstCrossing threshold t.co2_levels = none) ∧
      (∀ (c : Consts) (startYear : ℤ),
        firstCrossing c.toxic_breathing_co2_ppm
            (model_co2_trajectory c startYear 1000 (0.01 : ℝ)).co2_levels =
            none →
          calculate_years_until_toxic_breathing c startYear =
            Except.error
              "CO2 does not reach toxic levels within 1000 years in this model") ∧
      (∀ m, display_results (Except.error m) = ConsoleOutput.message m) ∧
      (∀ (c : Consts) (m : String),
        plot_co2_trajectory c (Except.error m) = none) :=
  ⟨fun t threshold h => (firstCrossing_eq_none_iff threshold t.co2_levels).mpr h,
    calculate_eq_error, fun _ => rfl, fun _ _ => rfl⟩

/-- A constant set with a zero gigaton-to-ppm factor: the model's levels
stay at the starting 420 ppm, so the 1000-year scan never crosses 4200. -/
def flatConsts : Consts :=
  ⟨420, 4200, 2.5, 7.6, 0, 36.8, 10.1⟩

/-- Under `flatConsts` the 1000-year scan finds no crossing. -/
theorem flatConsts_scan_none :
    firstCrossing flatConsts.toxic_breathing_co2_ppm
      (model_co2_trajectory flatConsts 2023 1000 (0.01 : ℝ)).co2_levels =
      none := by
  refine (firstCrossing_eq_none_iff _ _).mpr ?_
  intro x hx
  rw [model_co2_list] at hx
  simp only [List.mem_map, List.mem_range] at hx
  obtain ⟨i, _, rfl⟩ := hx
  rw [co2_levels_const_of_factor_zero flatConsts (0.01 : ℝ) rfl i]
  show (420 : ℝ) < 4200
  norm_num

/-- Witness for C5: each component instantiated — a concrete all-below
trajectory, the flat constant set whose scan is empty, and a concrete
error message through the console and chart steps. -/
theorem C5_not_found_witness :
    firstCrossing (4200 : ℝ)
        (Trajectory.mk [] [(420 : ℝ), 430] []).co2_levels = none ∧
      calculate_years_until_toxic_breathing flatConsts 2023 =
        Except.error
          "CO2 does not reach toxic levels within 1000 years in this model" ∧
      display_results (Except.error "m") = ConsoleOutput.message "m" ∧
      plot_co2_trajectory flatConsts (Except.error "m") = none :=
  ⟨C5_not_found.1 (Trajectory.mk [] [(420 : ℝ), 430] []) 4200
      (by
        intro x hx
        have hx2 : x = (420 : ℝ) ∨ x = 430 := by simpa using hx
        rcases hx2 with rfl | rfl <;> norm_num),
    C5_not_found.2.1 flatConsts 2023 flatConsts_scan_none,
    C5_not_found.2.2.1 "m",
    C5_not_found.2.2.2 flatConsts "m"⟩

/-- Claim C9: the threshold scan includes the initial record: whenever the
starting concentration already meets or exceeds the threshold, the
calculation succeeds, the crossing year is the trajectory's first (current)
year, and every elapsed-time figure is exactly 0. -/
theorem C9_initial_record_crossing (c : Consts) (startYear : ℤ)
    (h : c.toxic_breathing_co2_ppm ≤ c.current_co2_ppm) :
    ∃ r, calculate_years_until_toxic_breathing c startYear = Except.ok r ∧
      r.toxic_year = startYear ∧ r.years = 0 ∧ r.months = 0 ∧ r.days = 0 ∧
      r.hours = 0 ∧ r.minutes = 0 ∧ r.seconds = 0 := by
  refine ⟨_, calculate_ok_of_start_ge c startYear h, ?_⟩
  have hy : (model_co2_trajectory c startYear 1000 (0.01 : ℝ)).years.getD 0 0 =
      startYear := by
    rw [model_years_list, getD_map_range _ _ (Nat.succ_pos 1000)]
    simp
  have hz : (model_co2_trajectory c startYear 1000 (0.01 : ℝ)).years.getD 0 0 -
      startYear = 0 := by
    rw [hy]
    ring
  have hyears : (mkToxicResult startYear
      (model_co2_trajectory c startYear 1000 (0.01 : ℝ)) 0).years = 0 := by
    rw [mkToxicResult_years]
    exact hz
  refine ⟨?_, hyears, ?_, ?_, ?_, ?_, ?_⟩
  · rw [mkToxicResult_toxic_year]
    exact hy
  · rw [mkToxicResult_months, hyears]
    ring
  · rw [mkToxicResult_days, hyears]
    ring
  · rw [mkToxicResult_hours, mkToxicResult_days, hyears]
    ring
  · rw [mkToxicResult_minutes, mkToxicResult_hours, mkToxicResult_days, hyears]
    ring
  · rw [mkToxicResult_seconds, mkToxicResult_minutes, mkToxicResult_hours,
      mkToxicResult_days, hyears]
    ring

/-- Witness for C9 at a constant set whose starting level equals the
threshold (a tie counts as a crossing) and startYear = 2025. -/
theorem C9_initial_record_crossing_witness :
    ∃ r,
      calculate_years_until_toxic_breathing
          ⟨4200, 4200, 2.5, 7.6, 0.1292, 36.8, 10.1⟩ 2025 = Except.ok r ∧
        r.toxic_year = 2025 ∧ r.years = 0 ∧ r.months = 0 ∧ r.days = 0 ∧
        r.hours = 0 ∧ r.minutes = 0 ∧ r.seconds = 0 :=
  C9_initial_record_crossing ⟨4200, 4200, 2.5, 7.6, 0.1292, 36.8, 10.1⟩ 2025
    (le_refl (4200 : ℝ))

/-- Claim C10: the chart routine's independent re-scan is the same scan as
the analyzer's, and whenever the top-level calculation reports a crossing,
the chart is produced and its vertical-marker year (the year at the index
found by the plot routine's scan) equals the reported toxic_year. -/
theorem C10_plot_scan_agrees :
    (∀ (threshold : ℝ) (l : List ℝ),
        plotScan threshold l = firstCrossing threshold l) ∧
      ∀ (c : Consts) (startYear : ℤ) (r : ToxicResult),
        calculate_years_until_toxic_breathing c startYear = Except.ok r →
          ∃ cd, plot_co2_trajectory c (Except.ok r) = some cd ∧
            cd.marker_year = r.toxic_year := by
  refine ⟨plotScan_eq_firstCrossing, ?_⟩
  intro c startYear r h
  cases hfc : firstCrossing c.toxic_breathing_co2_ppm
      (model_co2_trajectory c startYear 1000 (0.01 : ℝ)).co2_levels with
  | none =>
      rw [calculate_eq_error c startYear hfc] at h
      exact Except.noConfusion h
  | some i =>
      rw [calculate_eq_ok c startYear i hfc] at h
      injection h with h
      subst h
      have hps : plotScan c.toxic_breathing_co2_ppm
          ((mkToxicResult startYear
              (model_co2_trajectory c startYear 1000 (0.01 : ℝ))
              i).model_results.co2_levels) = some i := by
        rw [plotScan_eq_firstCrossing, mkToxicResult_model_results]
        exact hfc
      refine ⟨_, plot_ok_some c _ i hps, ?_⟩
      rw [ChartData_marker, mkToxicResult_model_results, mkToxicResult_toxic_year]

/-- Witness for C10: the scan equivalence at a concrete list, and the
crossing-marker agreement at a constant set whose starting level exceeds
the threshold (hypothesis discharged by `calculate_ok_of_start_ge`). -/
theorem C10_plot_scan_agrees_witness :
    plotScan (5 : ℝ) [(1 : ℝ), 7] = firstCrossing (5 : ℝ) [(1 : ℝ), 7] ∧
      ∃ cd,
        plot_co2_trajectory ⟨4200, 420, 2.5, 7.6, 0.1292, 36.8, 10.1⟩
            (Except.ok
              (mkToxicResult 2023
                (model_co2_trajectory ⟨4200, 420, 2.5, 7.6, 0.1292, 36.8, 10.1⟩
                  2023 1000 (0.01 : ℝ)) 0)) = some cd ∧
          cd.marker_year =
            (mkToxicResult 2023
              (model_co2_trajectory ⟨4200, 420, 2.5, 7.6, 0.1292, 36.8, 10.1⟩
                2023 1000 (0.01 : ℝ)) 0).toxic_year :=
  ⟨C10_plot_scan_agrees.1 5 [1, 7],
    C10_plot_scan_agrees.2 ⟨4200, 420, 2.5, 7.6, 0.1292, 36.8, 10.1⟩ 2023 _
      (calculate_ok_of_start_ge ⟨4200, 420, 2.5, 7.6, 0.1292, 36.8, 10.1⟩ 2023
        (by norm_num))⟩

/-- With acceleration_factor = 0 the growth rate vanishes, so annual
emissions stay at the starting value. -/
theorem annual_emissions_accel_zero (c : Consts) (i : ℕ) :
    annual_emissions c 0 i = c.current_annual_emissions_gt := by
  induction i with
  | zero => rfl
  | succ n ih =>
      rw [annual_emissions, ih]
      ring

/-- A constant set identical to the source's except that initial annual
emissions are 17 GT/year, strictly below the 17.7 GT/year total natural
sequestration. -/
def lowEmissionConsts : Consts :=
  ⟨420, 4200, 2.5, 7.6, 0.1292, 17, 10.1⟩

/-- Counterexample to claim C7 as stated: with acceleration_factor = 0 and
initial emissions 17 GT/year strictly below the 17.7 GT/year total natural
sequestration, the trajectory over a 41-year horizon is NOT non-increasing:
by year 41 the sequestration capacity has decayed below 17 GT (17.7 *
0.999^41 < 17), so the concentration rises from record 40 to record 41. -/
theorem C7_counterexample :
    lowEmissionConsts.current_annual_emissions_gt <
        lowEmissionConsts.total_natural_sequestration_gt ∧
      (model_co2_trajectory lowEmissionConsts 2023 41 0).co2_levels.getD 40 0 <
        (model_co2_trajectory lowEmissionConsts 2023 41 0).co2_levels.getD 41 0 := by
  constructor
  · show (17 : ℝ) < 7.6 + 10.1
    norm_num
  · rw [model_co2_list, getD_map_range _ _ (by norm_num : (40 : ℕ) < 41 + 1),
      getD_map_range _ _ (by norm_num : (41 : ℕ) < 41 + 1)]
    rw [show (41 : ℕ) = 40 + 1 from rfl]
    have hstep : co2_levels lowEmissionConsts 0 (40 + 1) =
        co2_levels lowEmissionConsts 0 40 +
          (lowEmissionConsts.current_annual_emissions_gt *
              lowEmissionConsts.gt_co2_to_ppm -
            lowEmissionConsts.total_natural_sequestration_gt *
                (0.999 : ℝ) ^ ((40 : ℕ) + 1) * lowEmissionConsts.gt_co2_to_ppm) := by
      rw [co2_levels, annual_emissions_accel_zero]
    rw [hstep]
    have hnet : (0 : ℝ) <
        lowEmissionConsts.current_annual_emissions_gt *
            lowEmissionConsts.gt_co2_to_ppm -
          lowEmissionConsts.total_natural_sequestration_gt *
              (0.999 : ℝ) ^ ((40 : ℕ) + 1) * lowEmissionConsts.gt_co2_to_ppm := by
      show (0 : ℝ) < 17 * 0.1292 - (7.6 + 10.1) * (0.999 : ℝ) ^ ((40 : ℕ) + 1) * 0.1292
      norm_num
    linarith [hnet]

/-- Claim C7, amended: the decaying sequestration makes the original claim
fail for long horizons, so the initial emissions must sit below the decayed
sequestration capacity at the final modeled year.  For every horizon N, if
acceleration_factor = 0, the gigaton-to-ppm factor and the total natural
sequestration are nonnegative, and the initial annual emissions are at most
total_natural_sequestration * 0.999 ^ N, then consecutive concentration
values never increase. -/
theorem C7_nonincreasing_amended (c : Consts) (startYear : ℤ) (N : ℕ)
    (hf : 0 ≤ c.gt_co2_to_ppm) (hs : 0 ≤ c.total_natural_sequestration_gt)
    (he : c.current_annual_emissions_gt ≤
      c.total_natural_sequestration_gt * (0.999 : ℝ) ^ N)
    (i : ℕ) (hi : i < N) :
    (model_co2_trajectory c startYear N 0).co2_levels.getD (i + 1) 0 ≤
      (model_co2_trajectory c startYear N 0).co2_levels.getD i 0 := by
  rw [model_co2_list, getD_map_range _ _ (by omega : i + 1 < N + 1),
    getD_map_range _ _ (by omega : i < N + 1)]
  rw [co2_levels, annual_emissions_accel_zero]
  have h1 : c.total_natural_sequestration_gt * (0.999 : ℝ) ^ N ≤
      c.total_natural_sequestration_gt * (0.999 : ℝ) ^ (i + 1) := by
    apply mul_le_mul_of_nonneg_left _ hs
    apply pow_le_pow_of_le_one (by norm_num) (by norm_num)
    omega
  have h2 : c.current_annual_emissions_gt ≤
      c.total_natural_sequestration_gt * (0.999 : ℝ) ^ (i + 1) := he.trans h1
  have h3 : (0 : ℝ) ≤
      (c.total_natural_sequestration_gt * (0.999 : ℝ) ^ (i + 1) -
        c.current_annual_emissions_gt) * c.gt_co2_to_ppm :=
    mul_nonneg (sub_nonneg.mpr h2) hf
  nlinarith [h3]

/-- Witness for the amended C7 at the low-emission constant set, horizon 5
(where 17 ≤ 17.7 * 0.999^5) and step 0 → 1. -/
theorem C7_nonincreasing_amended_witness :
    (model_co2_trajectory lowEmissionConsts 2023 5 0).co2_levels.getD (0 + 1) 0 ≤
      (model_co2_trajectory lowEmissionConsts 2023 5 0).co2_levels.getD 0 0 :=
  C7_nonincreasing_amended lowEmissionConsts 2023 5
    (by
      show (0 : ℝ) ≤ 0.1292
      norm_num)
    (by
      show (0 : ℝ) ≤ 7.6 + 10.1
      norm_num)
    (by
      show (17 : ℝ) ≤ (7.6 + 10.1) * (0.999 : ℝ) ^ (5 : ℕ)
      norm_num)
    0 (by norm_num)

/-- Closed form of the emissions recurrence: a product of the growth
factors of steps 1..i over the starting emissions. -/
theorem annual_emissions_closed (c : Consts) (a : ℝ) (i : ℕ) :
    annual_emissions c a i =
      c.current_annual_emissions_gt *
        ∏ k ∈ Finset.Icc 1 i, (1 + a * Real.exp (-(k : ℝ) / 100)) := by
  induction i with
  | zero =>
      rw [show annual_emissions c a 0 = c.current_annual_emissions_gt from rfl,
        Finset.Icc_eq_empty (by norm_num), Finset.prod_empty, mul_one]
  | succ n ih =>
      rw [annual_emissions, ih,
        Finset.prod_Icc_succ_top (Nat.succ_le_succ (Nat.zero_le n))]
      ring

/-- Closed form of the CO2 recurrence: starting level plus the sum of the
net ppm increases of steps 1..i. -/
theorem co2_levels_closed (c : Consts) (a : ℝ) (i : ℕ) :
    co2_levels c a i =
      c.current_co2_ppm +
        ∑ k ∈ Finset.Icc 1 i,
          (annual_emissions c a k * c.gt_co2_to_ppm -
            c.total_natural_sequestration_gt * (0.999 : ℝ) ^ k *
              c.gt_co2_to_ppm) := by
  induction i with
  | zero =>
      rw [show co2_levels c a 0 = c.current_co2_ppm from rfl,
        Finset.Icc_eq_empty (by norm_num), Finset.sum_empty, add_zero]
  | succ n ih =>
      rw [co2_levels, ih,
        Finset.sum_Icc_succ_top (Nat.succ_le_succ (Nat.zero_le n))]
      ring

/-- Claim C8: the trajectory generator is a pure, deterministic function of
its inputs and the fixed constant set: each of the three returned lists is
an explicit closed form of the start year, the horizon length, the
acceleration factor and the constants alone, so any two runs with the same
inputs and constants produce identical trajectories.  (The source reads the
current calendar year from the clock; it enters the embedding as the
explicit startYear input.) -/
theorem C8_pure_function (c : Consts) (startYear : ℤ) (N : ℕ) (a : ℝ) :
    (model_co2_trajectory c startYear N a).years =
        (List.range (N + 1)).map (fun i : ℕ => startYear + (i : ℤ)) ∧
      (model_co2_trajectory c startYear N a).annual_emissions =
        (List.range (N + 1)).map (fun i : ℕ =>
          c.current_annual_emissions_gt *
            ∏ k ∈ Finset.Icc 1 i, (1 + a * Real.exp (-(k : ℝ) / 100))) ∧
      (model_co2_trajectory c startYear N a).co2_levels =
        (List.range (N + 1)).map (fun i : ℕ =>
          c.current_co2_ppm +
            ∑ k ∈ Finset.Icc 1 i,
              ((c.current_annual_emissions_gt *
                    ∏ j ∈ Finset.Icc 1 k,
                      (1 + a * Real.exp (-(j : ℝ) / 100))) *
                  c.gt_co2_to_ppm -
                c.total_natural_sequestration_gt * (0.999 : ℝ) ^ k *
                  c.gt_co2_to_ppm)) := by
  refine ⟨rfl, ?_, ?_⟩
  · rw [model_emissions_list]
    exact List.map_congr_left fun i _ => annual_emissions_closed c a i
  · rw [model_co2_list]
    refine List.map_congr_left fun i _ => ?_
    rw [co2_levels_closed]
    congr 1
    refine Finset.sum_congr rfl fun k _ => ?_
    rw [annual_emissions_closed]

/-! ### Numeric development for the end-to-end scenario (srcConsts,
acceleration_factor = 0.01, horizon 1000) -/

/-- Starting concentration of the source constants. -/
theorem srcConsts_current : srcConsts.current_co2_ppm = (420 : ℝ) := rfl

/-- Toxic threshold of the source constants. -/
theorem srcConsts_toxic : srcConsts.toxic_breathing_co2_ppm = (4200 : ℝ) := rfl

/-- Conversion factor of the source constants. -/
theorem srcConsts_factor : srcConsts.gt_co2_to_ppm = (0.1292 : ℝ) := rfl

/-- Starting emissions of the source constants. -/
theorem srcConsts_emissions : srcConsts.current_annual_emissions_gt = (36.8 : ℝ) := rfl

/-- Total natural sequestration of the source constants. -/
theorem srcConsts_sequestration :
    srcConsts.total_natural_sequestration_gt = (7.6 : ℝ) + 10.1 := rfl

/-- For step indices up to 100 the decaying exponential stays above 0.367
(since exp (-1) = (exp 1)⁻¹ > 1 / 2.7182818286 > 0.367). -/
theorem exp_decay_lb (k : ℕ) (hk : k ≤ 100) :
    (367 / 1000 : ℝ) ≤ Real.exp (-(k : ℝ) / 100) := by
  have hk' : (k : ℝ) ≤ 100 := by exact_mod_cast hk
  have h1 : (-1 : ℝ) ≤ -(k : ℝ) / 100 := by linarith
  have h2 : Real.exp (-1) ≤ Real.exp (-(k : ℝ) / 100) := Real.exp_le_exp.mpr h1
  refine le_trans ?_ h2
  rw [Real.exp_neg]
  have h3 : Real.exp 1 < 2.7182818286 := Real.exp_one_lt_d9
  have h4 : (0 : ℝ) < Real.exp 1 := Real.exp_pos 1
  have h5 : (367 / 1000 : ℝ) * Real.exp 1 ≤ 1 := by nlinarith
  calc (367 / 1000 : ℝ)
      = 367 / 1000 * Real.exp 1 * (Real.exp 1)⁻¹ := by
        field_simp
        ring
    _ ≤ 1 * (Real.exp 1)⁻¹ :=
        mul_le_mul_of_nonneg_right h5 (inv_nonneg.mpr h4.le)
    _ = (Real.exp 1)⁻¹ := one_mul _

/-- Every emissions value in the end-to-end run is at least the 36.8 GT
starting value (each growth factor exceeds 1). -/
theorem em_ge_start (i : ℕ) :
    (36.8 : ℝ) ≤ annual_emissions srcConsts (0.01 : ℝ) i := by
  induction i with
  | zero => rw [show annual_emissions srcConsts (0.01 : ℝ) 0 = (36.8 : ℝ) from rfl]
  | succ n ih =>
      rw [annual_emissions]
      have he : (0 : ℝ) < Real.exp (-(((n : ℕ) + 1 : ℕ) : ℝ) / 100) := Real.exp_pos _
      nlinarith [mul_nonneg (le_trans (by norm_num) ih :
        (0 : ℝ) ≤ annual_emissions srcConsts (0.01 : ℝ) n) he.le]

/-- Emissions never decrease from one step to the next in the end-to-end
run. -/
theorem em_step (i : ℕ) :
    annual_emissions srcConsts (0.01 : ℝ) i ≤
      annual_emissions srcConsts (0.01 : ℝ) (i + 1) := by
  rw [annual_emissions]
  have he : (0 : ℝ) < Real.exp (-(((i : ℕ) + 1 : ℕ) : ℝ) / 100) := Real.exp_pos _
  nlinarith [mul_nonneg (le_trans (by norm_num) (em_ge_start i) :
    (0 : ℝ) ≤ annual_emissions srcConsts (0.01 : ℝ) i) he.le]

/-- Emissions are monotone in the step index in the end-to-end run. -/
theorem em_mono : Monotone (annual_emissions srcConsts (0.01 : ℝ)) :=
  monotone_nat_of_le_succ em_step

/-- Up to step 100, emissions grow at least geometrically with ratio
1 + 0.367 / 100 per step. -/
theorem em_geom (k : ℕ) (hk : k ≤ 100) :
    (36.8 : ℝ) * (1 + 367 / 100000) ^ k ≤
      annual_emissions srcConsts (0.01 : ℝ) k := by
  induction k with
  | zero =>
      rw [show annual_emissions srcConsts (0.01 : ℝ) 0 = (36.8 : ℝ) from rfl]
      norm_num
  | succ n ih =>
      have hn : n ≤ 100 := Nat.le_of_succ_le hk
      have ih' := ih hn
      have hek : (367 / 1000 : ℝ) ≤
          Real.exp (-(((n : ℕ) + 1 : ℕ) : ℝ) / 100) := exp_decay_lb (n + 1) hk
      have hnn : (0 : ℝ) ≤ annual_emissions srcConsts (0.01 : ℝ) n :=
        le_trans (by norm_num) (em_ge_start n)
      rw [annual_emissions]
      have hfac : (1 : ℝ) + 367 / 100000 ≤
          1 + (0.01 : ℝ) * Real.exp (-(((n : ℕ) + 1 : ℕ) : ℝ) / 100) := by
        nlinarith
      calc (36.8 : ℝ) * (1 + 367 / 100000) ^ (n + 1)
          = 36.8 * (1 + 367 / 100000) ^ n * (1 + 367 / 100000) := by ring
        _ ≤ annual_emissions srcConsts (0.01 : ℝ) n * (1 + 367 / 100000) :=
            mul_le_mul_of_nonneg_right ih' (by norm_num)
        _ ≤ annual_emissions srcConsts (0.01 : ℝ) n *
              (1 + (0.01 : ℝ) * Real.exp (-(((n : ℕ) + 1 : ℕ) : ℝ) / 100)) :=
            mul_le_mul_of_nonneg_left hfac hnn

/-- By step 100 the emissions exceed 53 GT/year. -/
theorem em_100 : (53 : ℝ) ≤ annual_emissions srcConsts (0.01 : ℝ) 100 := by
  refine le_trans ?_ (em_geom 100 (le_refl 100))
  norm_num

/-- From step 100 on, emissions stay above 53 GT/year. -/
theorem em_ge_53 (i : ℕ) (hi : 100 ≤ i) :
    (53 : ℝ) ≤ annual_emissions srcConsts (0.01 : ℝ) i :=
  le_trans em_100 (em_mono hi)

/-- The CO2 level never drops below the 420 ppm starting value in the
end-to-end run: emissions (≥ 36.8 GT) always outweigh sequestration
(≤ 17.7 GT). -/
theorem co2_ge_420 (i : ℕ) :
    (420 : ℝ) ≤ co2_levels srcConsts (0.01 : ℝ) i := by
  induction i with
  | zero => rw [show co2_levels srcConsts (0.01 : ℝ) 0 = (420 : ℝ) from rfl]
  | succ n ih =>
      rw [co2_levels, srcConsts_factor, srcConsts_sequestration]
      have hem : (36.8 : ℝ) ≤ annual_emissions srcConsts (0.01 : ℝ) (n + 1) :=
        em_ge_start (n + 1)
      have hp1 : (0.999 : ℝ) ^ ((n : ℕ) + 1) ≤ 1 :=
        pow_le_one₀ (by norm_num) (by norm_num)
      have hp0 : (0 : ℝ) ≤ (0.999 : ℝ) ^ ((n : ℕ) + 1) :=
        pow_nonneg (by norm_num) _
      linarith

/-- From step 100 on, each step of the end-to-end run adds at least 4.56
ppm: emissions of at least 53 GT convert to at least 6.84 ppm while
sequestration removes at most 2.29 ppm. -/
theorem co2_from_100 (n : ℕ) :
    (420 : ℝ) + 4.56 * (n : ℝ) ≤ co2_levels srcConsts (0.01 : ℝ) (100 + n) := by
  induction n with
  | zero =>
      have := co2_ge_420 100
      push_cast
      linarith
  | succ m ih =>
      rw [show 100 + (m + 1) = (100 + m) + 1 from rfl, co2_levels,
        srcConsts_factor, srcConsts_sequestration]
      have hem : (53 : ℝ) ≤
          annual_emissions srcConsts (0.01 : ℝ) ((100 + m) + 1) :=
        em_ge_53 ((100 + m) + 1) (by omega)
      have hp1 : (0.999 : ℝ) ^ (((100 + m : ℕ) : ℕ) + 1) ≤ 1 :=
        pow_le_one₀ (by norm_num) (by norm_num)
      have hp0 : (0 : ℝ) ≤ (0.999 : ℝ) ^ (((100 + m : ℕ) : ℕ) + 1) :=
        pow_nonneg (by norm_num) _
      push_cast
      push_cast at ih
      linarith

/-- By step 999 the end-to-end run has passed the 4200 ppm threshold. -/
theorem co2_999 : (4200 : ℝ) ≤ co2_levels srcConsts (0.01 : ℝ) 999 := by
  have h := co2_from_100 899
  have h2 : (4200 : ℝ) ≤ 420 + 4.56 * ((899 : ℕ) : ℝ) := by norm_num
  exact le_trans h2 h

/-- The 1000-year scan of the end-to-end run crosses the threshold at some
index between 1 and 999. -/
theorem crossing_exists (startYear : ℤ) :
    ∃ i, 1 ≤ i ∧ i ≤ 999 ∧
      firstCrossing srcConsts.toxic_breathing_co2_ppm
        (model_co2_trajectory srcConsts startYear 1000 (0.01 : ℝ)).co2_levels =
        some i := by
  have h999mem : co2_levels srcConsts (0.01 : ℝ) 999 ∈
      (model_co2_trajectory srcConsts startYear 1000 (0.01 : ℝ)).co2_levels := by
    rw [model_co2_list]
    exact List.mem_map_of_mem _ (List.mem_range.mpr (by norm_num))
  have hnn : firstCrossing srcConsts.toxic_breathing_co2_ppm
      (model_co2_trajectory srcConsts startYear 1000 (0.01 : ℝ)).co2_levels ≠
      none := by
    intro hnone
    have hbelow := (firstCrossing_eq_none_iff _ _).mp hnone _ h999mem
    rw [srcConsts_toxic] at hbelow
    exact absurd hbelow (not_lt.mpr co2_999)
  obtain ⟨i, hfc⟩ := Option.ne_none_iff_exists'.mp hnn
  obtain ⟨hilen, hige, hibelow⟩ := (firstCrossing_eq_some_iff _ _ _).mp hfc
  refine ⟨i, ?_, ?_, hfc⟩
  · by_contra h0
    push_neg at h0
    interval_cases i
    rw [model_co2_list, getD_map_range _ _ (by norm_num : (0 : ℕ) < 1000 + 1),
      srcConsts_toxic,
      show co2_levels srcConsts (0.01 : ℝ) 0 = (420 : ℝ) from rfl] at hige
    linarith
  · by_contra h9
    push_neg at h9
    have hb := hibelow 999 h9
    rw [model_co2_list, getD_map_range _ _ (by norm_num : (999 : ℕ) < 1000 + 1),
      srcConsts_toxic] at hb
    exact absurd hb (not_lt.mpr co2_999)

/-- Claim C6: with the source constants (starting 420 ppm, threshold
4200 ppm), acceleration_factor 0.01 and the default 1000-year horizon, the
top-level calculation succeeds with a crossing year strictly between the
start year and start year + 1000, and the reported elapsed years equal
crossing_year - start_year exactly. -/
theorem C6_end_to_end (startYear : ℤ) :
    ∃ r, calculate_years_until_toxic_breathing srcConsts startYear =
        Except.ok r ∧
      startYear < r.toxic_year ∧ r.toxic_year < startYear + 1000 ∧
      r.years = r.toxic_year - startYear := by
  obtain ⟨i, hi1, hi999, hfc⟩ := crossing_exists startYear
  refine ⟨_, calculate_eq_ok srcConsts startYear i hfc, ?_, ?_, ?_⟩
  · rw [mkToxicResult_toxic_year, model_years_list,
      getD_map_range _ _ (by omega : i < 1000 + 1)]
    have hc : (1 : ℤ) ≤ (i : ℤ) := by exact_mod_cast hi1
    linarith
  · rw [mkToxicResult_toxic_year, model_years_list,
      getD_map_range _ _ (by omega : i < 1000 + 1)]
    have hc : (i : ℤ) ≤ 999 := by exact_mod_cast hi999
    linarith
  · rw [mkToxicResult_years, mkToxicResult_toxic_year]

end Timeleft
